import Mathlib

set_option maxRecDepth 4096

/-!
Verification development for the RAG proxy server in `src/LLM/Docker/app.py`.

The Python module is shallowly embedded below.  Strings model Python `str`
values (character operations go through `String.data`), external collaborators
(the embedding transport, the vector-similarity engine, the web-search
provider, the inference backend) appear as explicit oracle arguments, and the
module-level mutable globals `vectorstore` / `code_hash` become an explicit
`ServerState` threaded through `build_vectorstore`.
-/

namespace App

/-- A file of the mounted code tree: absolute path plus raw byte content
(bytes modeled as a `String`).  The list order of a `FileTree` is the order
in which the recursive directory walk of `glob.glob(..., recursive=True)`
yields the files. -/
structure SrcFile where
  path : String
  content : String
deriving DecidableEq

abbrev FileTree := List SrcFile

/-- `os.path.join("/code", path) if path != "." else "/code"` (lines 75, 157). -/
def absPath (p : String) : String := if p = "." then "/code" else "/code/" ++ p

/-- Character-list test used below in place of the path functions of the
Python standard library, so that all matching is executable. -/
def listStartsWith : List Char → List Char → Bool
  | [], _ => true
  | _ :: _, [] => false
  | a :: as, b :: bs => a == b && listStartsWith as bs

def listEndsWith (suf l : List Char) : Bool :=
  listStartsWith suf.reverse l.reverse

/-- Whether `glob.glob(f"{root}/**/*.go", recursive=True)` matches a file:
it lies strictly under `root` and carries the `.go` extension. -/
def matchesGoGlob (root : String) (f : SrcFile) : Bool :=
  listStartsWith (root ++ "/").data f.path.data && listEndsWith ".go".data f.path.data

/-- The files matched for one root, in walk order. -/
def globGo (tree : FileTree) (root : String) : List SrcFile :=
  tree.filter (matchesGoGlob root)

/-- The `hashlib.md5()` accumulator is modeled as the exact byte stream that
was fed to `update`, and `hexdigest` as that stream itself.  The model keeps
precisely the information that determines the real digest: which bytes were
hashed, in which order. -/
abbrev Digest := List Char

def md5update (m : Digest) (chunk : String) : Digest := m ++ chunk.data

def md5hexdigest (m : Digest) : Digest := m

/-- `hash_code_dir` (lines 72-82): for each configured path, feed the bytes
of every matched `.go` file, in walk order, into one MD5 accumulator and
return the digest.  The `try/except: continue` skip of unreadable files does
not appear: every file of the modeled tree is readable. -/
def hash_code_dir (paths : List String) (tree : FileTree) : Digest :=
  md5hexdigest
    (paths.foldl
      (fun m path => (globGo tree (absPath path)).foldl (fun m' f => md5update m' f.content) m)
      [])

/-- Insertion of a file into a path-sorted list (lexicographic on the
character codes), used only by the spec-side enumeration below. -/
def charsLe : List Char → List Char → Bool
  | [], _ => true
  | _ :: _, [] => false
  | a :: as, b :: bs => if a < b then true else if b < a then false else charsLe as bs

def insertByPath (f : SrcFile) : List SrcFile → List SrcFile
  | [] => [f]
  | g :: gs => if charsLe f.path.data g.path.data then f :: g :: gs else g :: insertByPath f gs

def sortByPath (l : List SrcFile) : List SrcFile := l.foldr insertByPath []

/-- Modelled from the spec words, for comparison with `hash_code_dir` only:
the same digest fold, but enumerating the matches of each root in sorted
path order ("recursive, stable sort order"). -/
def hash_code_dir_sortedSpec (paths : List String) (tree : FileTree) : Digest :=
  md5hexdigest
    (paths.foldl
      (fun m path =>
        (sortByPath (globGo tree (absPath path))).foldl (fun m' f => md5update m' f.content) m)
      [])

/-- The documents loaded for one build: `DirectoryLoader(abs_path,
glob="**/*.go")` over each configured root (lines 156-170), i.e. the same
enumeration that feeds the fingerprint.  Cleaning and chunking are
external-library transformations that play no role in the claims below; a
collection is identified by the documents it was built from. -/
def loadDocs (paths : List String) (tree : FileTree) : List SrcFile :=
  paths.foldl (fun acc p => acc ++ globGo tree (absPath p)) []

/-- The two Chroma collections assembled by `build_vectorstore`
(lines 176-213). -/
structure VectorStore where
  chat_context : List SrcFile
  code_completion : List SrcFile
deriving DecidableEq

def mkVectorStore (paths : List String) (tree : FileTree) : VectorStore :=
  { chat_context := loadDocs paths tree, code_completion := loadDocs paths tree }

/-- The module-level mutable globals of app.py: `vectorstore` (line 129) and
`code_hash` (line 130). -/
structure ServerState where
  vectorstore : Option VectorStore
  code_hash : Digest
deriving DecidableEq

/-- `vectorstore = None`, `code_hash = ""`. -/
def initialState : ServerState := { vectorstore := none, code_hash := [] }

/-- Result of one `build_vectorstore()` call: the state after the call, how
many embedding/indexing passes ran, and the exception surfaced to the
caller, if any. -/
structure BuildResult where
  state : ServerState
  embedPasses : Nat
  error : Option String
deriving DecidableEq

/-- `build_vectorstore` (lines 132-215).  `buildFails` abstracts an
exception raised anywhere in the rebuild work: document loading, embedding,
or collection construction (lines 148-213) — all of which, in the source,
run only after `code_hash = new_hash` has already been assigned on
line 142. -/
def build_vectorstore (paths : List String) (tree : FileTree)
    (st : ServerState) (buildFails : Bool) : BuildResult :=
  let new_hash := hash_code_dir paths tree
  if st.vectorstore.isSome = true ∧ new_hash = st.code_hash then
    { state := st, embedPasses := 0, error := none }
  else
    let st1 : ServerState := { st with code_hash := new_hash }
    if buildFails then
      { state := st1, embedPasses := 0, error := some "rebuild raised" }
    else
      { state := { vectorstore := some (mkVectorStore paths tree), code_hash := new_hash },
        embedPasses := 1,
        error := none }

/-! Concrete scenario used to evaluate the failed-rebuild behavior. -/

def treeV1 : FileTree := [⟨"/code/a.go", "package a"⟩]

def treeV2 : FileTree := [⟨"/code/a.go", "package a // edited"⟩]

/-- State after a first successful build over `treeV1`. -/
def stAfterFirstBuild : ServerState := (build_vectorstore ["."] treeV1 initialState false).state

/-- The files then change to `treeV2` and the triggered rebuild raises. -/
def failedRebuild : BuildResult := build_vectorstore ["."] treeV2 stAfterFirstBuild true

/-! Context formatting (`format_context`, lines 218-236). -/

/-- A document as returned by the similarity search: its source path
(the source entry of `doc.metadata`) and its text (`doc.page_content`). -/
structure Doc where
  source : String
  page_content : String
deriving DecidableEq

/-- `os.path.basename`: the part of the path after the final slash. -/
def basename (p : String) : String :=
  ⟨p.data.foldl (fun acc c => if c = '/' then [] else acc ++ [c]) []⟩

/-- `textwrap.indent(text, "    ")`: the four-space marker is prepended to
every line holding a non-whitespace character (the default predicate of
`textwrap.indent`). -/
def indentLine (l : String) : String := if l.trim = "" then l else "    " ++ l

def indent4 (s : String) : String :=
  String.intercalate "\n" ((s.splitOn "\n").map indentLine)

/-- The `(index, doc)` pairs surviving the loop of `format_context`: a pair
is kept when its `page_content` is not yet a key of the `extraits` dict
(the accumulator `seen` collects the keys inserted so far). -/
def keptEntries : List (Nat × Doc) → List String → List (Nat × Doc)
  | [], _ => []
  | (i, d) :: rest, seen =>
    if d.page_content ∈ seen then keptEntries rest seen
    else (i, d) :: keptEntries rest (d.page_content :: seen)

/-- The two lines appended to `context` for one kept entry (lines 230-231). -/
def renderEntry (e : Nat × Doc) : List String :=
  ["### Fichier: " ++ basename e.2.source ++ " (Extrait " ++ toString (e.1 + 1) ++ ") ###",
   indent4 e.2.page_content]

/-- `format_context`: the loop appends the header line and the indented
excerpt for every kept entry, and the result is joined with blank lines. -/
def format_context (docs : List Doc) : String :=
  String.intercalate "\n\n" ((keptEntries docs.enum []).flatMap renderEntry)

/-- The excerpt texts surviving `format_context`, in rendered order. -/
def retrievedTexts (docs : List Doc) : List String :=
  (keptEntries docs.enum []).map (fun e => e.2.page_content)

/-- Modelled from the spec words ("keeping only the first occurrence and
preserving retrieval order"), for comparison with `format_context`: keep
the head, drop its later duplicates, recurse. -/
def dedupFirst : List String → List String
  | [] => []
  | x :: xs => x :: dedupFirst (xs.filter (fun y => y != x))
termination_by l => l.length
decreasing_by
  simp only [List.length_cons]
  exact Nat.lt_succ_of_le (List.length_filter_le _ _)

/-! Web search, prompt construction, endpoints. -/

/-- One result of `ddgs.text` (title, href, body). -/
structure WebHit where
  title : String
  href : String
  body : String
deriving DecidableEq

/-- Python slice `s[:n]`. -/
def pyTake (n : Nat) (s : String) : String := ⟨s.data.take n⟩

/-- Python slice `s[-n:]`: the last `n` characters (the whole string when it
is shorter). -/
def pyTakeLast (n : Nat) (s : String) : String := ⟨s.data.drop (s.data.length - n)⟩

/-- The `web_info` string assembled on lines 316-319. -/
def formatWebHits (results : List WebHit) : String :=
  if results = [] then "Aucun résultat web trouvé."
  else
    String.intercalate "\n"
      (results.map (fun r =>
        "- [" ++ r.title ++ "](" ++ r.href ++ "): " ++ pyTake 150 r.body ++ "..."))

/-- `perform_web_search` (lines 303-321).  The provider outcome is the
oracle `search`.  On the success path the function computes `web_info` and
then falls off the end of the `try` block without a `return` statement, so
Python returns `None`: the result type is `Option String` with `none`
standing for `None`. -/
def perform_web_search (ddgsEnabled : Bool) (search : Except String (List WebHit)) :
    Option String :=
  if !ddgsEnabled then some "Recherche web désactivée"
  else
    match search with
    | .error e => some ("Erreur recherche web: " ++ e)
    | .ok results =>
      let _web_info := formatWebHits results
      none

/-- Python f-string interpolation of a value that may be `None`:
`str(None) = "None"`. -/
def pyStrOpt : Option String → String
  | none => "None"
  | some s => s

inductive Mode
  | generate
  | chat
deriving DecidableEq

/-- `PROG_LANG` with its default value. -/
def PROG_LANG : String := "go"

/-- `build_enhanced_prompt` (lines 323-381): the two f-string templates,
written as explicit concatenations. -/
def build_enhanced_prompt (mode : Mode) (question rag_context web_context : String) : String :=
  if mode = Mode.chat then
    "\n# Consigne\n\nVous êtes un expert en programmation " ++ PROG_LANG
      ++ ". Répondez à la question en utilisant le contexte fourni (extraits de code) et les informations web si disponibles.\nAutant que possible tu indiqueras tes sources, url, nom du fichier source...\n\n# Contexte de la question:\n\n## **Contexte Code (extraits pertinents):**\n\n"
      ++ rag_context
      ++ "\n\n## **Informations Web:**\n\n"
      ++ web_context
      ++ "\n\n## **Instructions:**\n- Répondez de manière concise et précise à la question\n- Si la réponse se trouve dans le contexte code, citez le fichier et l\u0027extrait correspondant\n- Si vous utilisez les informations web, citez la source\n- Si la question est en anglais, répondez en anglais. Sinon, en français\n- Pour les extraits de code, conservez le formatage et l\u0027indentation\n\n# **Question** à laquelle tu dois répondre\n\n"
      ++ question ++ "\n"
  else
    "\n# Consigne\n\nVous êtes un expert en programmation " ++ PROG_LANG
      ++ ". Essayer de concevoir un petit bout de code permetant de résoudre la question\n\n# Contexte de la question:\n\n## **Contexte Code (extraits pertinents):**\n\n"
      ++ rag_context
      ++ "\n\n## **Instructions:**\n\n- Rédigez les commentaires de code dans la même langue que le code qui vous est fourni. À défaut en anglais.\n- Nommez les variables dans la même langue que le code qui vous est fourni. À défaut en anglais.\n- Si la question est en anglais, répondez en anglais. Sinon, en français\n- Pour les extraits de code, conservez le formatage et l\u0027indentation\n\n# **Question** à laquelle tu dois répondre\n\n"
      ++ question ++ "\n"

/-- `build_augmented_prompt` (lines 384-402).  Retrieval
(`perform_rag_search`) may raise; it is the oracle `rag`, whose exception
propagates out.  Web search runs only in chat mode, through
`perform_web_search`, whose `None`-or-string result is interpolated into
the template; in generate mode `web_context` is the empty string. -/
def build_augmented_prompt (mode : Mode) (question : String)
    (rag : Except String String) (ddgsEnabled : Bool)
    (search : Except String (List WebHit)) : Except String String :=
  match rag with
  | .error e => .error e
  | .ok rag_context =>
    let web_context : String :=
      if mode = Mode.chat then pyStrOpt (perform_web_search ddgsEnabled search) else ""
    .ok (build_enhanced_prompt mode question rag_context web_context)

/-- A message of a chat request. -/
structure ChatMessage where
  role : String
  content : String
deriving DecidableEq

/-- An `HTTPException(status, detail)` raised back to the client. -/
structure HTTPError where
  status : Nat
  detail : String
deriving DecidableEq

/-- Lines 491-502 of `chat_endpoint`: when the last message comes from the
user, its content is replaced by the augmented prompt truncated to its last
8000 characters; when augmentation raises, the content falls back to the
original question and no error escapes. -/
def chat_prepare_messages (messages : List ChatMessage)
    (rag : Except String String) (ddgsEnabled : Bool)
    (search : Except String (List WebHit)) : List ChatMessage :=
  match messages.getLast? with
  | none => messages
  | some last =>
    if last.role = "user" then
      let original_question := last.content
      let newContent :=
        match build_augmented_prompt Mode.chat original_question rag ddgsEnabled search with
        | .ok augmented_prompt => pyTakeLast 8000 augmented_prompt
        | .error _ => original_question
      messages.dropLast ++ [{ last with content := newContent }]
    else messages

/-- Lines 439-448 and 483-486 of `generate_endpoint`: the prompt put into
the backend payload, or the `HTTPException` raised.  There is no fallback:
an augmentation failure reaches only the generic `except Exception`
handler, which aborts the request with status 500.  (The web-search
arguments of `build_augmented_prompt` are irrelevant in generate mode.) -/
def generate_prepare_prompt (prompt : String) (rag : Except String String) :
    Except HTTPError String :=
  match build_augmented_prompt Mode.generate prompt rag true (Except.ok []) with
  | .ok p => .ok p
  | .error e => .error ⟨500, "Erreur interne: " ++ e⟩

/-! Relaying the backend outcome (lines 451-486 and 523-563). -/

/-- Outcome of the HTTP round trip to the backend: a success body, an
`httpx.HTTPStatusError` raised by `raise_for_status` (carrying the backend
status, the response body, and the exception text `str(e)`), or an
`httpx.RequestError` (connection failure or timeout, carrying `str(e)`). -/
inductive BackendOutcome
  | ok (body : String)
  | statusError (status : Nat) (body : String) (msg : String)
  | requestError (msg : String)
deriving DecidableEq

/-- What the client receives. -/
inductive RelayResult
  | ok (body : String)
  | httpError (status : Nat) (detail : String)
deriving DecidableEq

def RelayResult.statusCode : RelayResult → Nat
  | .ok _ => 200
  | .httpError s _ => s

/-- The inner exception handlers of `chat_endpoint` (lines 557-563): an
`HTTPStatusError` is turned into an `HTTPException(502, ...)` carrying the
backend response body, a `RequestError` into an `HTTPException(503, ...)`.
These raises happen inside the outer `try` opened on line 490. -/
def chat_backend_handlers : BackendOutcome → Except HTTPError String
  | .ok body => .ok body
  | .statusError _s body _m => .error ⟨502, "Erreur Ollama: " ++ body⟩
  | .requestError m => .error ⟨503, "Ollama non disponible: " ++ m⟩

/-- The client-visible outcome of `chat_endpoint`.  The typed 502/503
exceptions raised by the inner handlers are raised inside the outer `try`
(line 490), and `HTTPException` is an `Exception`, so the generic handler
on lines 565-567 catches them and re-raises
`HTTPException(500, "Erreur interne: " + str(e))`.  The rendering `str(e)`
of the caught exception depends on the installed Starlette version and is
abstracted as `strE`; no conclusion below depends on it. -/
def chat_endpoint_relay (strE : HTTPError → String) (o : BackendOutcome) : RelayResult :=
  match chat_backend_handlers o with
  | .ok body => .ok body
  | .error e => .httpError 500 ("Erreur interne: " ++ strE e)

/-- Error translation of `generate_endpoint` (lines 483-486): only
`httpx.RequestError` and the generic `Exception` are caught.
`HTTPStatusError` is not a `RequestError`, so a non-success backend status
falls through to the generic handler as a 500; a connection failure is
also a 500. -/
def generate_relay : BackendOutcome → RelayResult
  | .ok body => .ok body
  | .statusError _s _b m => .httpError 500 ("Erreur interne: " ++ m)
  | .requestError m => .httpError 500 ("Erreur de connexion à Ollama: " ++ m)

/-- The `generate_stream` inner generator, identical in both endpoints
(lines 463-467 and 537-541): every chunk of `response.aiter_text()` is
yielded onward directly.  Its input is whatever `aiter_text` yields, which
for the fully read response of `client.post` is not the backend frame
sequence (see `aiter_text_buffered` below). -/
def generate_stream : List String → List String
  | [] => []
  | chunk :: rest => chunk :: generate_stream rest

/-- The body read by `await client.post(...)` (lines 452 and 525): the
buffered request API of httpx reads the entire response before returning,
concatenating every frame the backend emitted, in order. -/
def concatFrames (frames : List String) : String :=
  frames.foldl (fun a f => a ++ f) ""

/-- `response.aiter_text()` on a response whose content has already been
read, as after `client.post`: httpx iterates over the stored decoded
content and, with the default chunk size, yields it as one single chunk
(no chunk when it is empty) — a re-chunking of the buffered body, not the
frame sequence the backend emitted. -/
def aiter_text_buffered (body : String) : List String :=
  if body = "" then [] else [body]

/-- The chunk sequence the client receives from the streaming branch of
either endpoint: the inner generator applied to the `aiter_text` chunks of
the fully buffered response. -/
def endpoint_stream (frames : List String) : List String :=
  generate_stream (aiter_text_buffered (concatFrames frames))

/-! `NomicEmbeddingsWrapper` (lines 87-116). -/

/-- Embedding vectors; the coordinates (Python floats) are modeled as
rationals — only emptiness and length matter to the wrapper. -/
abbrev Vec := List ℚ

/-- `_cached_dim`, assigned the literal 768 in `__init__` (line 94). -/
def model_dimensions : Nat := 768

/-- `_prefix_text` (lines 96-99). -/
def prefix_text (text : String) (is_document : Bool) : String :=
  (if is_document then "search_document: " else "search_query: ") ++ text

/-- `embed_query` (lines 108-112): delegate with the query marker, then
replace an empty (falsy) provider vector by the 768-dimensional zero
vector.  The underlying `OllamaEmbeddings.embed_query` is the oracle
`provider`. -/
def embed_query (provider : String → Vec) (text : String) : Vec :=
  let emb := provider (prefix_text text false)
  if emb = [] then List.replicate model_dimensions 0 else emb

/-- `embed_documents` (lines 101-106): mark every text with the document
marker, call the underlying batch embedding (oracle `provider_batch`), then
normalize empty vectors element-wise. -/
def embed_documents (provider_batch : List String → List Vec) (texts : List String) : List Vec :=
  let embeddings := provider_batch (texts.map (fun t => prefix_text t true))
  embeddings.map (fun e => if e = [] then List.replicate model_dimensions 0 else e)

/-- A retrieval context of 8000 characters, used to instantiate the
truncation claim on a prompt that exceeds the 8000-character bound. -/
def bigRag : String := ⟨List.replicate 8000 'a'⟩

/-- The augmented chat prompt produced for question "q" and context
`bigRag` when the web search succeeds (and therefore renders as "None"). -/
def bigAugmented : String := build_enhanced_prompt Mode.chat "q" bigRag "None"

/-! ### Helper lemmas -/

theorem foldl_md5update (files : List SrcFile) (m : Digest) :
    files.foldl (fun m' f => md5update m' f.content) m
      = m ++ (files.map (fun f => f.content.data)).flatten := by
  induction files generalizing m with
  | nil => simp
  | cons f fs ih =>
    simp only [md5update] at ih ⊢
    simp only [List.foldl_cons, List.map_cons, List.flatten_cons]
    rw [ih, List.append_assoc]

theorem hash_loadDocs_aux (tree : FileTree) (paths : List String) (m : Digest)
    (acc : List SrcFile) (hm : m = (acc.map (fun f => f.content.data)).flatten) :
    paths.foldl
        (fun m' path =>
          (globGo tree (absPath path)).foldl (fun m'' f => md5update m'' f.content) m') m
      = ((paths.foldl (fun a p => a ++ globGo tree (absPath p)) acc).map
          (fun f => f.content.data)).flatten := by
  induction paths generalizing m acc with
  | nil => simpa using hm
  | cons p ps ih =>
    simp only [List.foldl_cons]
    exact ih _ (acc ++ globGo tree (absPath p))
      (by rw [foldl_md5update, hm, List.map_append, List.flatten_append])

/-- The fingerprint digest is exactly the concatenated contents of the files
that `loadDocs` enumerates, in enumeration order. -/
theorem hash_code_dir_eq_loadDocs (paths : List String) (tree : FileTree) :
    hash_code_dir paths tree
      = ((loadDocs paths tree).map (fun f => f.content.data)).flatten := by
  unfold hash_code_dir loadDocs md5hexdigest
  exact hash_loadDocs_aux tree paths [] [] (by simp)

/-! ### Claim theorems -/

/-- C1: the claim says a failed rebuild leaves the previous IndexState —
stored fingerprint and collections — untouched, so that a later call with
the same unchanged files retries the rebuild.  Evaluating the code at the
failing input: after a successful build of `treeV1`, the file changes to
`treeV2` and the rebuild raises.  The failure is surfaced and the
collections are untouched, but `code_hash` was already overwritten with the
fingerprint of `treeV2` (line 142 runs before the rebuild work), so the
next call with the same unchanged `treeV2` returns the stale collections
with zero embedding passes instead of retrying. -/
theorem failed_rebuild_skips_retry :
    failedRebuild.error.isSome = true
    ∧ failedRebuild.state.vectorstore = stAfterFirstBuild.vectorstore
    ∧ failedRebuild.state.code_hash ≠ stAfterFirstBuild.code_hash
    ∧ failedRebuild.state.code_hash = hash_code_dir ["."] treeV2
    ∧ build_vectorstore ["."] treeV2 failedRebuild.state false
        = ⟨failedRebuild.state, 0, none⟩ := by
  decide

/-- C3 counterexample: `glob.glob` enumerates in directory-walk order, not
in sorted order.  For two files whose walk order disagrees with the sorted
path order, the digest of `hash_code_dir` differs from the digest of the
spec-described sorted enumeration; moreover the same set of files walked in
the opposite order yields a different digest, so the enumeration order is
not normalized away. -/
theorem hash_enumeration_not_sorted :
    hash_code_dir ["."] [⟨"/code/b.go", "B"⟩, ⟨"/code/a.go", "A"⟩]
      ≠ hash_code_dir_sortedSpec ["."] [⟨"/code/b.go", "B"⟩, ⟨"/code/a.go", "A"⟩]
    ∧ hash_code_dir ["."] [⟨"/code/b.go", "B"⟩, ⟨"/code/a.go", "A"⟩]
      ≠ hash_code_dir ["."] [⟨"/code/a.go", "A"⟩, ⟨"/code/b.go", "B"⟩] := by
  decide

/-- C3 (amended): `hash_code_dir` is deterministic relative to the
directory walk: its digest is a function of the matched files and their
bytes in enumeration order only — two trees whose matched enumerations
carry the same contents in the same order (whatever the non-matching files
do) receive the identical fingerprint.  The enumeration is the walk order,
not a sorted order. -/
theorem fingerprint_deterministic (paths : List String) (t1 t2 : FileTree)
    (h : (loadDocs paths t1).map (fun f => f.content.data)
          = (loadDocs paths t2).map (fun f => f.content.data)) :
    hash_code_dir paths t1 = hash_code_dir paths t2 := by
  rw [hash_code_dir_eq_loadDocs, hash_code_dir_eq_loadDocs, h]

/-- Witness for C3: the unmodified tree, and the same tree with an added
non-matching file, fingerprint identically. -/
theorem fingerprint_deterministic_witness :
    hash_code_dir ["."] treeV1
      = hash_code_dir ["."] (treeV1 ++ [⟨"/code/notes.txt", "x"⟩]) :=
  fingerprint_deterministic ["."] treeV1 (treeV1 ++ [⟨"/code/notes.txt", "x"⟩]) (by decide)

/-- C4: when an IndexState exists and the fresh fingerprint equals the
stored one, `build_vectorstore` performs no embedding pass and returns the
state unchanged; a second call right after any successful call is such a
no-op, and a call from the empty initial state performs exactly one
embedding pass — so two calls with no intervening file change perform
exactly one pass in total. -/
theorem ensureFresh_idempotent (paths : List String) (tree : FileTree)
    (st st0 : ServerState) (vs : VectorStore)
    (hvs : st.vectorstore = some vs)
    (hh : hash_code_dir paths tree = st.code_hash) :
    build_vectorstore paths tree st false = ⟨st, 0, none⟩
    ∧ build_vectorstore paths tree (build_vectorstore paths tree st0 false).state false
        = ⟨(build_vectorstore paths tree st0 false).state, 0, none⟩
    ∧ (st0.vectorstore = none → (build_vectorstore paths tree st0 false).embedPasses = 1) := by
  refine ⟨?_, ?_, ?_⟩
  · simp [build_vectorstore, hvs, hh]
  · by_cases hc : st0.vectorstore.isSome = true ∧ hash_code_dir paths tree = st0.code_hash
    · simp [build_vectorstore, hc]
    · simp [build_vectorstore, hc]
  · intro h0
    simp [build_vectorstore, h0]

/-- Witness for C4 at a concrete one-file tree. -/
theorem ensureFresh_idempotent_witness :
    build_vectorstore ["."] treeV1
        { vectorstore := some (mkVectorStore ["."] treeV1),
          code_hash := hash_code_dir ["."] treeV1 } false
      = ⟨{ vectorstore := some (mkVectorStore ["."] treeV1),
           code_hash := hash_code_dir ["."] treeV1 }, 0, none⟩
    ∧ build_vectorstore ["."] treeV1
          (build_vectorstore ["."] treeV1 initialState false).state false
        = ⟨(build_vectorstore ["."] treeV1 initialState false).state, 0, none⟩
    ∧ (initialState.vectorstore = none →
        (build_vectorstore ["."] treeV1 initialState false).embedPasses = 1) :=
  ensureFresh_idempotent ["."] treeV1
    { vectorstore := some (mkVectorStore ["."] treeV1),
      code_hash := hash_code_dir ["."] treeV1 }
    initialState (mkVectorStore ["."] treeV1) rfl rfl

theorem data_append (a b : String) : (a ++ b).data = a.data ++ b.data := by
  cases a
  cases b
  rfl

theorem pyTakeLast_data (n : Nat) (s : String) :
    (pyTakeLast n s).data = s.data.drop (s.data.length - n) := rfl

/-- The chat template strictly extends the retrieval context, so the
augmented prompt is always longer than the context substituted into it. -/
theorem chat_prompt_longer (q rag web : String) :
    rag.data.length < (build_enhanced_prompt Mode.chat q rag web).data.length := by
  unfold build_enhanced_prompt
  rw [if_pos rfl]
  simp only [data_append, List.length_append, List.length_cons, List.length_nil]
  omega

/-- The concrete augmented prompt built over the 8000-character context
exceeds the truncation bound. -/
theorem bigAugmented_long : 8000 < bigAugmented.data.length := by
  have h0 : bigRag.data.length = 8000 := by
    rw [show bigRag.data = List.replicate 8000 'a' from rfl, List.length_replicate]
  have h2 := chat_prompt_longer "q" bigRag "None"
  rw [show bigAugmented = build_enhanced_prompt Mode.chat "q" bigRag "None" from rfl]
  omega

theorem dropLast_append_of_getLast? {α : Type} (l : List α) (a : α)
    (h : l.getLast? = some a) : l.dropLast ++ [a] = l := by
  induction l with
  | nil => simp at h
  | cons x xs ih =>
    cases xs with
    | nil =>
      simp only [List.getLast?_singleton, Option.some.injEq] at h
      simp [h]
    | cons y ys =>
      rw [List.getLast?_cons_cons] at h
      simpa using ih h

theorem filter_notMem_cons (xs : List String) (c : String) (seen : List String) :
    (xs.filter (fun y => decide (y ∉ seen))).filter (fun y => y != c)
      = xs.filter (fun y => decide (y ∉ c :: seen)) := by
  rw [List.filter_filter]
  apply List.filter_congr
  intro a _
  by_cases h1 : a = c <;> by_cases h2 : a ∈ seen <;> simp [h1, h2]

theorem dedupFirst_cons (x : String) (xs : List String) :
    dedupFirst (x :: xs) = x :: dedupFirst (xs.filter (fun y => y != x)) := by
  rw [dedupFirst]

theorem filter_notMem_nil (xs : List String) :
    xs.filter (fun y => decide (y ∉ ([] : List String))) = xs := by
  induction xs with
  | nil => rfl
  | cons x xs ih => simp [List.filter_cons, ih]

/-- The texts surviving the loop of `format_context`, given the keys
already present in `extraits`, are the first-occurrence deduplication of
the incoming texts not yet seen. -/
theorem keptEntries_map_eq (l : List (Nat × Doc)) (seen : List String) :
    (keptEntries l seen).map (fun e => e.2.page_content)
      = dedupFirst ((l.map (fun e => e.2.page_content)).filter (fun y => decide (y ∉ seen))) := by
  induction l generalizing seen with
  | nil => simp [keptEntries, dedupFirst]
  | cons e rest ih =>
    obtain ⟨i, d⟩ := e
    by_cases hmem : d.page_content ∈ seen
    · rw [show keptEntries ((i, d) :: rest) seen = keptEntries rest seen from
        by rw [keptEntries, if_pos hmem]]
      rw [ih seen]
      congr 1
      simp [List.filter_cons, hmem]
    · rw [show keptEntries ((i, d) :: rest) seen
          = (i, d) :: keptEntries rest (d.page_content :: seen) from
        by rw [keptEntries, if_neg hmem]]
      have hfil : (((i, d) :: rest).map (fun e => e.2.page_content)).filter
            (fun y => decide (y ∉ seen))
          = d.page_content
            :: ((rest.map (fun e => e.2.page_content)).filter (fun y => decide (y ∉ seen))) := by
        simp [List.filter_cons, hmem]
      rw [hfil, dedupFirst_cons, filter_notMem_cons, List.map_cons,
        ih (d.page_content :: seen)]

/-- C6: `format_context` deduplicates by exact text equality, keeping only
the first occurrence of each text and preserving retrieval order; on the
chunk texts `[A, B, A, C]` exactly `[A, B, C]` survive, in that order, and
the rendered context is the join of the renderings of exactly the
surviving entries. -/
theorem format_context_dedups (docs : List Doc) :
    retrievedTexts docs = dedupFirst (docs.map Doc.page_content)
    ∧ retrievedTexts [⟨"f1.go", "A"⟩, ⟨"f2.go", "B"⟩, ⟨"f3.go", "A"⟩, ⟨"f4.go", "C"⟩]
        = ["A", "B", "C"]
    ∧ format_context docs
        = String.intercalate "\n\n" ((keptEntries docs.enum []).flatMap renderEntry) := by
  refine ⟨?_, by decide, rfl⟩
  unfold retrievedTexts
  rw [keptEntries_map_eq, filter_notMem_nil]
  congr 1
  rw [show (fun e : Nat × Doc => e.2.page_content) = (Doc.page_content ∘ Prod.snd) from rfl,
    ← List.map_map, List.enum_map_snd]

/-- C2 counterexample: in generate mode there is no fallback.  With the
retrieval oracle raising, the request is aborted with an internal 500
error; in particular the prompt forwarded onward is not the original
question — nothing is forwarded at all. -/
theorem generate_enrichment_failure_aborts :
    generate_prepare_prompt "q" (Except.error "boom")
      = Except.error ⟨500, "Erreur interne: boom"⟩
    ∧ generate_prepare_prompt "q" (Except.error "boom") ≠ Except.ok "q" :=
  ⟨rfl, fun h => nomatch h⟩

/-- C2 (amended): in chat mode an augmentation failure is swallowed: the
outgoing message list equals the incoming one (the last user message keeps
the original question) and no error is surfaced; in generate mode the same
failure aborts the request with a 500 internal error. -/
theorem enrichment_failure_fallback (messages : List ChatMessage) (last : ChatMessage)
    (e : String) (enabled : Bool) (search : Except String (List WebHit)) (p : String)
    (hlast : messages.getLast? = some last) (hrole : last.role = "user") :
    chat_prepare_messages messages (Except.error e) enabled search = messages
    ∧ generate_prepare_prompt p (Except.error e)
        = Except.error ⟨500, "Erreur interne: " ++ e⟩ := by
  refine ⟨?_, rfl⟩
  have h1 : chat_prepare_messages messages (Except.error e) enabled search
      = if last.role = "user" then messages.dropLast ++ [last] else messages := by
    unfold chat_prepare_messages
    rw [hlast]
    rfl
  rw [h1, if_pos hrole]
  exact dropLast_append_of_getLast? messages last hlast

/-- Witness for C2 (amended) at a one-message chat request. -/
theorem enrichment_failure_fallback_witness :
    chat_prepare_messages [⟨"user", "q"⟩] (Except.error "io down") true (Except.ok [])
      = [⟨"user", "q"⟩]
    ∧ generate_prepare_prompt "q" (Except.error "io down")
        = Except.error ⟨500, "Erreur interne: " ++ "io down"⟩ :=
  enrichment_failure_fallback [⟨"user", "q"⟩] ⟨"user", "q"⟩ "io down" true (Except.ok [])
    "q" rfl rfl

/-- C5: in chat mode, when the augmented prompt exceeds 8000 characters,
the content forwarded in the last message is exactly the last 8000
characters of the augmented prompt (a trailing window: the prompt is the
discarded head followed by the forwarded content, which has length 8000);
in generate mode the augmented prompt is forwarded without truncation. -/
theorem chat_truncation (messages : List ChatMessage) (last : ChatMessage)
    (rag : Except String String) (enabled : Bool) (search : Except String (List WebHit))
    (ap p apg : String) (ragG : Except String String)
    (hlast : messages.getLast? = some last) (hrole : last.role = "user")
    (hok : build_augmented_prompt Mode.chat last.content rag enabled search = Except.ok ap)
    (hlen : 8000 < ap.data.length)
    (hgen : build_augmented_prompt Mode.generate p ragG true (Except.ok []) = Except.ok apg) :
    chat_prepare_messages messages rag enabled search
      = messages.dropLast ++ [{ last with content := pyTakeLast 8000 ap }]
    ∧ (pyTakeLast 8000 ap).data = ap.data.drop (ap.data.length - 8000)
    ∧ (pyTakeLast 8000 ap).data.length = 8000
    ∧ ap.data = ap.data.take (ap.data.length - 8000) ++ (pyTakeLast 8000 ap).data
    ∧ generate_prepare_prompt p ragG = Except.ok apg := by
  refine ⟨?_, ?_, ?_, ?_, ?_⟩
  · have h1 : chat_prepare_messages messages rag enabled search
        = if last.role = "user" then
            messages.dropLast
              ++ [{ last with content :=
                      match build_augmented_prompt Mode.chat last.content rag enabled search with
                      | Except.ok augmented_prompt => pyTakeLast 8000 augmented_prompt
                      | Except.error _ => last.content }]
          else messages := by
      unfold chat_prepare_messages
      rw [hlast]
    rw [h1, if_pos hrole, hok]
  · rw [pyTakeLast_data]
  · rw [pyTakeLast_data, List.length_drop]
    omega
  · rw [pyTakeLast_data]
    exact (List.take_append_drop _ _).symm
  · unfold generate_prepare_prompt
    rw [hgen]

/-- Witness for C5: a one-message chat request whose retrieval context has
8000 characters, hence an augmented prompt beyond the bound. -/
theorem chat_truncation_witness :
    chat_prepare_messages [⟨"user", "q"⟩] (Except.ok bigRag) true (Except.ok [])
      = ([⟨"user", "q"⟩] : List ChatMessage).dropLast
        ++ [⟨"user", pyTakeLast 8000 bigAugmented⟩]
    ∧ (pyTakeLast 8000 bigAugmented).data
        = bigAugmented.data.drop (bigAugmented.data.length - 8000)
    ∧ (pyTakeLast 8000 bigAugmented).data.length = 8000
    ∧ bigAugmented.data
        = bigAugmented.data.take (bigAugmented.data.length - 8000)
          ++ (pyTakeLast 8000 bigAugmented).data
    ∧ generate_prepare_prompt "p" (Except.ok "ctx")
        = Except.ok (build_enhanced_prompt Mode.generate "p" "ctx" "") :=
  chat_truncation [⟨"user", "q"⟩] ⟨"user", "q"⟩ (Except.ok bigRag) true (Except.ok [])
    bigAugmented "p" (build_enhanced_prompt Mode.generate "p" "ctx" "") (Except.ok "ctx")
    rfl rfl rfl bigAugmented_long rfl

/-- C7 counterexample: in neither mode does the client receive a typed
upstream error or a service-unavailable-class connectivity error.  In chat
mode the inner 502/503 exceptions are re-caught by the generic handler of
the endpoint and re-raised as 500, and in generate mode both failure kinds
are raised as 500 directly, so at these concrete inputs the client sees
status 500 for a non-success backend status and for a connection failure
alike — indistinguishable from each other and from internal errors.  (The
rendering of the caught exception is instantiated with its detail text;
the status codes do not depend on it.) -/
theorem backend_errors_collapse_to_500 :
    (chat_endpoint_relay (fun e => e.detail)
        (BackendOutcome.statusError 404 "not found" "msg")).statusCode = 500
    ∧ (chat_endpoint_relay (fun e => e.detail)
        (BackendOutcome.requestError "timeout")).statusCode = 500
    ∧ (chat_endpoint_relay (fun e => e.detail)
          (BackendOutcome.statusError 404 "not found" "msg")).statusCode
        = (chat_endpoint_relay (fun e => e.detail)
            (BackendOutcome.requestError "timeout")).statusCode
    ∧ (generate_relay (BackendOutcome.statusError 404 "not found" "msg")).statusCode = 500
    ∧ (generate_relay (BackendOutcome.requestError "timeout")).statusCode = 500
    ∧ (generate_relay (BackendOutcome.requestError "timeout")).statusCode ≠ 503 := by
  decide

/-- C7 (amended): in both modes a non-success backend status and a backend
connection failure or timeout are surfaced to the client as 500 errors.
`generate_endpoint` raises them as 500 directly (internal / connection
message).  `chat_endpoint` first constructs a typed 502 upstream error
carrying the backend response body, or a 503 connectivity error, but these
are raised inside the outer try and its generic handler re-raises them as
`HTTPException(500, "Erreur interne: " + str(e))` — whatever the rendering
`strE` of the caught exception, the client-visible status is 500 for both
kinds, distinguishing neither the two failure kinds from each other nor
from internal errors. -/
theorem relay_error_translation (strE : HTTPError → String) (s : Nat) (body m : String) :
    chat_backend_handlers (BackendOutcome.statusError s body m)
      = Except.error ⟨502, "Erreur Ollama: " ++ body⟩
    ∧ chat_backend_handlers (BackendOutcome.requestError m)
      = Except.error ⟨503, "Ollama non disponible: " ++ m⟩
    ∧ chat_endpoint_relay strE (BackendOutcome.statusError s body m)
        = RelayResult.httpError 500
            ("Erreur interne: " ++ strE ⟨502, "Erreur Ollama: " ++ body⟩)
    ∧ chat_endpoint_relay strE (BackendOutcome.requestError m)
        = RelayResult.httpError 500
            ("Erreur interne: " ++ strE ⟨503, "Ollama non disponible: " ++ m⟩)
    ∧ (chat_endpoint_relay strE (BackendOutcome.statusError s body m)).statusCode
        = (chat_endpoint_relay strE (BackendOutcome.requestError m)).statusCode
    ∧ generate_relay (BackendOutcome.statusError s body m)
        = RelayResult.httpError 500 ("Erreur interne: " ++ m)
    ∧ generate_relay (BackendOutcome.requestError m)
        = RelayResult.httpError 500 ("Erreur de connexion à Ollama: " ++ m) :=
  ⟨rfl, rfl, rfl, rfl, rfl, rfl, rfl⟩

/-- C8: the claim says that for a backend stream emitting frames F1, F2,
F3 the relay emits exactly those frames in order with no buffering or
reformatting.  Evaluating the code at that input: `client.post` has
already read the whole body when the generator first runs, and
`aiter_text` yields the buffered text as a single chunk, so the client
receives the one chunk "F1F2F3" — the content survives only as a
concatenation, the frame boundaries are lost, and the entire stream was
buffered before the first byte went out. -/
theorem buffered_stream_loses_boundaries :
    endpoint_stream ["F1", "F2", "F3"] = ["F1F2F3"]
    ∧ endpoint_stream ["F1", "F2", "F3"] ≠ ["F1", "F2", "F3"]
    ∧ concatFrames (endpoint_stream ["F1", "F2", "F3"])
        = concatFrames ["F1", "F2", "F3"] := by
  decide

/-- C9: with the web-search flag enabled and a provider call that does not
raise, `perform_web_search` returns `None` (its success path has no return
statement), so the web-information block of the chat prompt interpolates
as the text "None"; a string is returned only when the flag is disabled or
the provider raises. -/
theorem web_search_returns_none (q rag e : String) (results : List WebHit) :
    perform_web_search true (Except.ok results) = none
    ∧ pyStrOpt (perform_web_search true (Except.ok results)) = "None"
    ∧ build_augmented_prompt Mode.chat q (Except.ok rag) true (Except.ok results)
        = Except.ok (build_enhanced_prompt Mode.chat q rag "None")
    ∧ perform_web_search false (Except.ok results) = some "Recherche web désactivée"
    ∧ perform_web_search true (Except.error e) = some ("Erreur recherche web: " ++ e) :=
  ⟨rfl, rfl, rfl, rfl, rfl⟩

/-- C10: the embedding wrapper never yields an empty vector: `embed_query`
passes the provider vector through when it is nonempty and substitutes the
768-dimensional zero vector when it is empty (falsy), `embed_documents`
applies the same replacement element-wise, and under the assumption that
the provider emits vectors that are empty or of dimension 768, every
vector handed to the index has length 768. -/
theorem embeddings_never_empty (provider : String → Vec)
    (provider_batch : List String → List Vec) (text : String) (texts : List String)
    (hdim : ∀ t, provider t = [] ∨ (provider t).length = 768)
    (hbatch : ∀ ts v, v ∈ provider_batch ts → v = [] ∨ v.length = 768) :
    embed_query provider text ≠ []
    ∧ (provider (prefix_text text false) = [] →
        embed_query provider text = List.replicate 768 0)
    ∧ (provider (prefix_text text false) ≠ [] →
        embed_query provider text = provider (prefix_text text false))
    ∧ (∀ v ∈ embed_documents provider_batch texts, v ≠ [])
    ∧ (embed_query provider text).length = 768
    ∧ (∀ v ∈ embed_documents provider_batch texts, v.length = 768) := by
  have hq : embed_query provider text
      = if provider (prefix_text text false) = [] then List.replicate model_dimensions 0
        else provider (prefix_text text false) := rfl
  have hrep : (List.replicate model_dimensions (0 : ℚ)) ≠ [] := by
    intro h
    have hl := congrArg List.length h
    rw [List.length_replicate, List.length_nil] at hl
    exact absurd hl (by decide)
  refine ⟨?_, ?_, ?_, ?_, ?_, ?_⟩
  · rw [hq]
    by_cases he : provider (prefix_text text false) = []
    · rw [if_pos he]
      exact hrep
    · rw [if_neg he]
      exact he
  · intro he
    rw [hq, if_pos he]
    rfl
  · intro he
    rw [hq, if_neg he]
  · intro v hv
    simp only [embed_documents] at hv
    obtain ⟨e, he_mem, rfl⟩ := List.mem_map.mp hv
    by_cases he : e = []
    · rw [if_pos he]
      exact hrep
    · rw [if_neg he]
      exact he
  · by_cases he : provider (prefix_text text false) = []
    · rw [hq, if_pos he, List.length_replicate]
      rfl
    · rw [hq, if_neg he]
      rcases hdim (prefix_text text false) with h | h
      · exact absurd h he
      · exact h
  · intro v hv
    simp only [embed_documents] at hv
    obtain ⟨e, he_mem, rfl⟩ := List.mem_map.mp hv
    by_cases he : e = []
    · rw [if_pos he, List.length_replicate]
      rfl
    · rw [if_neg he]
      rcases hbatch _ _ he_mem with h | h
      · exact absurd h he
      · exact h

/-- Witness for C10 with a provider that yields only empty vectors. -/
theorem embeddings_never_empty_witness :
    embed_query (fun _ => ([] : Vec)) "x" ≠ []
    ∧ ((fun _ => ([] : Vec)) (prefix_text "x" false) = [] →
        embed_query (fun _ => ([] : Vec)) "x" = List.replicate 768 0)
    ∧ ((fun _ => ([] : Vec)) (prefix_text "x" false) ≠ [] →
        embed_query (fun _ => ([] : Vec)) "x" = (fun _ => ([] : Vec)) (prefix_text "x" false))
    ∧ (∀ v ∈ embed_documents (fun _ => [([] : Vec)]) ["doc"], v ≠ [])
    ∧ (embed_query (fun _ => ([] : Vec)) "x").length = 768
    ∧ (∀ v ∈ embed_documents (fun _ => [([] : Vec)]) ["doc"], v.length = 768) :=
  embeddings_never_empty (fun _ => []) (fun _ => [[]]) "x" ["doc"]
    (fun _ => Or.inl rfl)
    (fun _ v hv => by
      simp only [List.mem_singleton] at hv
      exact Or.inl hv)

end App
